import Mathlib

/-!
Verification development for the docviewer actor core (src/main.rs).

The Rust source is shallowly embedded: each actor update function becomes a
pure Lean function from state and message to new state plus emitted effects
(outputs to the parent, broker broadcasts, self inputs). The embedded
renderer (webkit WebView) and the JSON codec (serde_json) are external
crates; they are modelled as an explicit environment record of functions.
Process aborts (Rust panic, expect, unwrap, unreachable) are modelled with
the PanicOr result type.
-/

/-- Result of a computation that may abort the whole process (Rust panic). -/
inductive PanicOr (α : Type) : Type where
  | panicked (msg : String) : PanicOr α
  | ok (val : α) : PanicOr α
deriving DecidableEq, Repr

/-- One extracted heading, mirroring struct HTMLHeading (tag_name,
inner_text, index, id) as deserialized from the extraction script. -/
structure HTMLHeading where
  tag_name : String
  inner_text : String
  index : Nat
  id : Option String
deriving DecidableEq, Repr

/-- type Outline = Vec of HTMLHeading. -/
abbrev Outline := List HTMLHeading

/-- struct NavigationState { can_go_back, can_go_forward }. -/
structure NavigationState where
  can_go_back : Bool
  can_go_forward : Bool
deriving DecidableEq, Repr

/-- The webkit LoadEvent enum as seen by the Rust bindings: Started,
Redirected, Committed, Finished, plus a catch-all for unknown codes
(the bindings enum is non-exhaustive; the source match has a wildcard arm). -/
inductive LoadEvent : Type where
  | started : LoadEvent
  | redirected : LoadEvent
  | committed : LoadEvent
  | finished : LoadEvent
  | unknown (code : Int) : LoadEvent
deriving DecidableEq, Repr

/-- An error value from the glib layer (webkit script call failure). -/
structure GlibError where
  message : String
deriving DecidableEq, Repr

/-- Model of the renderer state observable by the embedded code: the
point-in-time navigation capability flags queried by get_nav_state. -/
structure WebView where
  can_go_back : Bool
  can_go_forward : Bool
deriving DecidableEq, Repr

/-- fn get_nav_state(webview): snapshot of the capability queries. -/
def get_nav_state (webview : WebView) : NavigationState :=
  { can_go_back := webview.can_go_back, can_go_forward := webview.can_go_forward }

/-- fn is_progress_visible(event): true for Started, Committed, Redirected;
false for Finished and the wildcard arm. -/
def is_progress_visible : LoadEvent → Bool
  | LoadEvent.started => true
  | LoadEvent.committed => true
  | LoadEvent.redirected => true
  | LoadEvent.finished => false
  | _ => false

/-- Environment of external-crate operations used by WebPaneModel: the
renderer navigation commands, the outline-extraction script call (returning
the textual JSON payload), and the serde_json deserializer (none models a
payload that is not well-formed JSON for a heading array). -/
structure WebEnv where
  go_back : WebView → WebView
  go_forward : WebView → WebView
  load_uri : String → WebView → WebView
  run_script_headings : WebView → Except GlibError String
  parse_outline : String → Option Outline

/-- The match in the LoadFinished arm: Ok(headings) becomes Some, Err
becomes None (after logging). -/
def outline_or_none : Except GlibError Outline → Option Outline
  | Except.ok headings => some headings
  | Except.error _ => none

/-- WebPaneModel::get_page_headings: runs the extraction script; on a script
error the glib error is returned (recoverable); on success the payload is
fed to serde_json::from_str with .expect("JSON deserialization failed"),
so a payload that does not parse aborts the process. -/
def get_page_headings (env : WebEnv) (webview : WebView) :
    PanicOr (Except GlibError Outline) :=
  match env.run_script_headings webview with
  | Except.error e => PanicOr.ok (Except.error e)
  | Except.ok val_str =>
      match env.parse_outline val_str with
      | some outline => PanicOr.ok (Except.ok outline)
      | none => PanicOr.panicked "JSON deserialization failed"

/-- The two script arguments computed by WebPaneModel::try_scroll_to_heading:
index = heading.index, id = heading.id.clone().unwrap_or_default(). -/
def try_scroll_to_heading_args (heading : HTMLHeading) : Nat × String :=
  (heading.index, heading.id.getD "")

/-- Which scroll path the injected script takes. -/
inductive ScrollPath : Type where
  | byId (id : String) : ScrollPath
  | byIndex (index : Nat) : ScrollPath
deriving DecidableEq, Repr

/-- The branch of the injected scroll script: if (id !== "") use the
id-based path, else index into the stashed element list. -/
def scroll_script_path (index : Nat) (id : String) : ScrollPath :=
  if id ≠ "" then ScrollPath.byId id else ScrollPath.byIndex index

/-- The scroll path taken for a given heading: the script applied to the
arguments try_scroll_to_heading hands it. -/
def try_scroll_to_heading_path (heading : HTMLHeading) : ScrollPath :=
  scroll_script_path (try_scroll_to_heading_args heading).1
    (try_scroll_to_heading_args heading).2

/-- enum WebPaneMsg. -/
inductive WebPaneMsg : Type where
  | goBack : WebPaneMsg
  | goForward : WebPaneMsg
  | updateNavState : WebPaneMsg
  | updatedURI (uri : String) : WebPaneMsg
  | selectedHeading (heading : HTMLHeading) : WebPaneMsg
  | loadFinished : WebPaneMsg
deriving DecidableEq, Repr

/-- enum TabMsg (the WebPane output type). -/
inductive TabMsg : Type where
  | goBack : TabMsg
  | goForward : TabMsg
  | updateTitle (title : Option String) : TabMsg
  | updatedURI (uri : String) : TabMsg
  | updateLoadState (event : LoadEvent) : TabMsg
  | updateNavState (state : NavigationState) : TabMsg
  | updateLoadProgress (progress : Rat) : TabMsg
  | updateOutline (outline : Option Outline) : TabMsg
  | updateURI (uri : String) : TabMsg
  | selectedHeading (heading : HTMLHeading) : TabMsg
deriving DecidableEq, Repr

/-- Effects of one WebPaneModel::update_with_view step: the renderer state
after the step, the outputs sent to the Tab, the messages the component
sends to its own mailbox, and how many outline-extraction script calls
were attempted. -/
structure WebPaneEffects where
  webview : WebView
  outputs : List TabMsg
  self_inputs : List WebPaneMsg
  extraction_attempts : Nat
deriving DecidableEq, Repr

/-- WebPaneModel::update_with_view, one message.  The SelectedHeading arm
runs the scroll script whose result is only logged, so it leaves the
modelled state untouched apart from the nav-state refresh it enqueues. -/
def update_with_view (env : WebEnv) (webview : WebView) :
    WebPaneMsg → PanicOr WebPaneEffects
  | WebPaneMsg.updatedURI new_uri =>
      PanicOr.ok ⟨env.load_uri new_uri webview, [], [WebPaneMsg.updateNavState], 0⟩
  | WebPaneMsg.selectedHeading _ =>
      PanicOr.ok ⟨webview, [], [WebPaneMsg.updateNavState], 0⟩
  | WebPaneMsg.goBack =>
      PanicOr.ok ⟨env.go_back webview, [], [WebPaneMsg.updateNavState], 0⟩
  | WebPaneMsg.goForward =>
      PanicOr.ok ⟨env.go_forward webview, [], [WebPaneMsg.updateNavState], 0⟩
  | WebPaneMsg.loadFinished =>
      match get_page_headings env webview with
      | PanicOr.panicked msg => PanicOr.panicked msg
      | PanicOr.ok headings =>
          PanicOr.ok ⟨webview, [TabMsg.updateOutline (outline_or_none headings)],
            [WebPaneMsg.updateNavState], 1⟩
  | WebPaneMsg.updateNavState =>
      PanicOr.ok ⟨webview, [TabMsg.updateNavState (get_nav_state webview)], [], 0⟩

/-- The connect_load_changed signal handler: outputs UpdateLoadState for the
event, enqueues UpdateNavState, and additionally enqueues LoadFinished when
the event is Finished. -/
def load_changed_handler (event : LoadEvent) : List TabMsg × List WebPaneMsg :=
  ([TabMsg.updateLoadState event],
   [WebPaneMsg.updateNavState] ++
     (if event = LoadEvent.finished then [WebPaneMsg.loadFinished] else []))

/-- Accumulated result of draining the WebPane mailbox. -/
structure CascadeResult where
  webview : WebView
  outputs : List TabMsg
  extraction_attempts : Nat
deriving DecidableEq, Repr

/-- Drain the WebPane mailbox FIFO, processing at most fuel messages;
self inputs sent during a step are appended to the back of the queue. -/
def run_queue (env : WebEnv) : Nat → WebView → List WebPaneMsg → PanicOr CascadeResult
  | _, webview, [] => PanicOr.ok ⟨webview, [], 0⟩
  | 0, webview, _ :: _ => PanicOr.ok ⟨webview, [], 0⟩
  | fuel + 1, webview, msg :: rest =>
      match update_with_view env webview msg with
      | PanicOr.panicked m => PanicOr.panicked m
      | PanicOr.ok eff =>
          match run_queue env fuel eff.webview (rest ++ eff.self_inputs) with
          | PanicOr.panicked m => PanicOr.panicked m
          | PanicOr.ok res =>
              PanicOr.ok ⟨res.webview, eff.outputs ++ res.outputs,
                eff.extraction_attempts + res.extraction_attempts⟩

/-- Everything a single load-changed signal for the given event triggers:
the direct handler output followed by the drained mailbox cascade. -/
def load_changed_cascade (env : WebEnv) (webview : WebView) (event : LoadEvent) :
    PanicOr CascadeResult :=
  match run_queue env 8 webview (load_changed_handler event).2 with
  | PanicOr.panicked m => PanicOr.panicked m
  | PanicOr.ok res =>
      PanicOr.ok ⟨res.webview, (load_changed_handler event).1 ++ res.outputs,
        res.extraction_attempts⟩

/-- Recognizer for navigation-state refresh outputs. -/
def is_nav_state_output : TabMsg → Bool
  | TabMsg.updateNavState _ => true
  | _ => false

/-- Recognizer for outline outputs. -/
def is_outline_output : TabMsg → Bool
  | TabMsg.updateOutline _ => true
  | _ => false

/-- Number of navigation-state refreshes the cascade for a Finished load
event produces (zero if the cascade aborts). -/
def finished_nav_refresh_count (env : WebEnv) (webview : WebView) : Nat :=
  match load_changed_cascade env webview LoadEvent.finished with
  | PanicOr.ok res => res.outputs.countP is_nav_state_output
  | PanicOr.panicked _ => 0

/-- enum NavBarMsg (the nav-bar broker topic). -/
inductive NavBarMsg : Type where
  | startEditingURI : NavBarMsg
  | cancelEditingURI : NavBarMsg
  | setNewURI (uri : String) : NavBarMsg
  | updatedTitle (title : Option String) : NavBarMsg
  | updatedSidebarVisibility (visible : Bool) : NavBarMsg
  | updatedNavState (state : NavigationState) : NavBarMsg
  | updatedURI (uri : String) : NavBarMsg
  | updatedProgressVisible (visible : Bool) : NavBarMsg
  | updatedLoadingProgress (progress : Rat) : NavBarMsg
deriving DecidableEq, Repr

/-- enum OutlineSidebarMsg (the outline-sidebar broker topic). -/
inductive OutlineSidebarMsg : Type where
  | updatedOutline (outline : Option Outline) : OutlineSidebarMsg
  | selectItem (index : Nat) : OutlineSidebarMsg
deriving DecidableEq, Repr

/-- enum TabResponse (the Tab output type the orchestrator receives). -/
inductive TabResponse : Type where
  | selectTab (handle : Nat) : TabResponse
  | updateOutline (outline : Option Outline) : TabResponse
deriving DecidableEq, Repr

/-- The per-tab state fields of struct TabModel (the web_pane controller is
modelled separately as messages emitted to it). -/
structure TabModel where
  uri : String
  current_title : Option String
  progress_visible : Bool
  load_progress : Rat
  nav_state : NavigationState
  outline : Option Outline
deriving DecidableEq, Repr

/-- Effects of one TabModel::update step: the new state, messages emitted to
the owned WebPane, broadcasts on the two brokers, and outputs to the
orchestrator. -/
structure TabEffects where
  state : TabModel
  web_pane_msgs : List WebPaneMsg
  nav_bar_broker : List NavBarMsg
  outline_broker : List OutlineSidebarMsg
  outputs : List TabResponse
deriving DecidableEq, Repr

/-- TabModel::update, one message. -/
def TabModel.update (s : TabModel) : TabMsg → TabEffects
  | TabMsg.goBack => ⟨s, [WebPaneMsg.goBack], [], [], []⟩
  | TabMsg.goForward => ⟨s, [WebPaneMsg.goForward], [], [], []⟩
  | TabMsg.updateTitle title =>
      ⟨{ s with current_title := title }, [], [NavBarMsg.updatedTitle title], [], []⟩
  | TabMsg.updateURI uri =>
      ⟨{ s with uri := uri }, [], [NavBarMsg.updatedURI uri], [], []⟩
  | TabMsg.updateNavState state =>
      ⟨{ s with nav_state := state }, [], [NavBarMsg.updatedNavState state], [], []⟩
  | TabMsg.updateLoadState event =>
      ⟨{ s with progress_visible := is_progress_visible event }, [],
        [NavBarMsg.updatedProgressVisible (is_progress_visible event)], [], []⟩
  | TabMsg.updateLoadProgress progress =>
      ⟨{ s with load_progress := progress }, [],
        [NavBarMsg.updatedLoadingProgress progress], [], []⟩
  | TabMsg.updateOutline outline =>
      ⟨{ s with outline := outline }, [], [],
        [OutlineSidebarMsg.updatedOutline outline], []⟩
  | TabMsg.updatedURI uri =>
      ⟨{ s with uri := uri }, [WebPaneMsg.updatedURI uri], [], [], []⟩
  | TabMsg.selectedHeading heading =>
      ⟨s, [WebPaneMsg.selectedHeading heading], [], [], []⟩

/-- TabModel::init_model: the state of a freshly created tab for a URI. -/
def init_tab (uri : String) : TabModel :=
  { uri := uri, current_title := none, progress_visible := false,
    load_progress := 0, nav_state := ⟨false, false⟩, outline := none }

/-- enum OutlineSidebarResponse. -/
inductive OutlineSidebarResponse : Type where
  | selectHeading (heading : HTMLHeading) : OutlineSidebarResponse
deriving DecidableEq, Repr

/-- The state of struct OutlineSidebarModel: the stored outline plus the
items held by the typed list view wrapper. -/
structure OutlineSidebarModel where
  outline : Option Outline
  list_items : List HTMLHeading
deriving DecidableEq, Repr

/-- Effects of one OutlineSidebarModel::update step: new state, outputs to
the orchestrator, and stderr log lines. -/
structure SidebarEffects where
  state : OutlineSidebarModel
  outputs : List OutlineSidebarResponse
  logs : List String
deriving DecidableEq, Repr

/-- OutlineSidebarModel::update.  UpdatedOutline clears the list view and
re-appends every heading; SelectItem looks the index up in the stored
outline, logging and dropping an out-of-range index, and hits the
unreachable macro (a process abort) when no outline is stored. -/
def OutlineSidebarModel.update (s : OutlineSidebarModel) :
    OutlineSidebarMsg → PanicOr SidebarEffects
  | OutlineSidebarMsg.updatedOutline outline =>
      PanicOr.ok ⟨⟨outline, (match outline with | some items => items | none => [])⟩, [], []⟩
  | OutlineSidebarMsg.selectItem index =>
      match s.outline with
      | some outline =>
          match outline[index]? with
          | some heading =>
              PanicOr.ok ⟨s, [OutlineSidebarResponse.selectHeading heading], []⟩
          | none =>
              PanicOr.ok ⟨s, [], ["Invalid heading index: " ++ toString index]⟩
      | none => PanicOr.panicked "Selected item without an outline"

/-- enum AppMsg. -/
inductive AppMsg : Type where
  | newTab : AppMsg
  | goBack : AppMsg
  | goForward : AppMsg
  | updateSidebarVisibility (visible : Bool) : AppMsg
  | selectTab (index : Nat) : AppMsg
  | selectHeading (heading : HTMLHeading) : AppMsg
  | updateOutline (outline : Option Outline) : AppMsg
  | updateURI (uri : String) : AppMsg
deriving DecidableEq, Repr

/-- The state of struct AppModel: tab states addressed by their resolved
index (a DynamicIndex handle is modelled by the position it resolves to),
the current-tab pointer, and the sidebar flag. -/
structure AppModel where
  starting_uri : String
  tabs : List TabModel
  current_tab : Option Nat
  sidebar_visible : Bool
deriving DecidableEq, Repr

/-- Effects of one AppModel::update step: new state, messages the model
sends to its own mailbox, messages addressed to a tab by index, and
messages emitted to the outline sidebar controller. -/
structure AppEffects where
  state : AppModel
  self_inputs : List AppMsg
  tab_sends : List (Nat × TabMsg)
  outline_sidebar_msgs : List OutlineSidebarMsg
deriving DecidableEq, Repr

/-- AppModel::get_current_tab: resolve the current handle in the tab list. -/
def get_current_tab (s : AppModel) : Option TabModel :=
  s.current_tab.bind (fun index => s.tabs[index]?)

/-- AppModel::send_to_current_tab: .expect("No current tab") aborts when no
current tab is set, otherwise the message goes to the resolved index. -/
def send_to_current_tab (s : AppModel) (msg : TabMsg) :
    PanicOr (List (Nat × TabMsg)) :=
  match s.current_tab with
  | none => PanicOr.panicked "No current tab"
  | some index => PanicOr.ok [(index, msg)]

/-- AppModel::update.  SelectTab first moves the current-tab pointer, then
unwraps get_current_tab and feeds the stored outline of the newly current
tab back through its own mailbox; UpdateOutline forwards to the sidebar. -/
def AppModel.update (s : AppModel) : AppMsg → PanicOr AppEffects
  | AppMsg.newTab =>
      PanicOr.ok ⟨{ s with tabs := s.tabs ++ [init_tab s.starting_uri] }, [], [], []⟩
  | AppMsg.goBack =>
      match send_to_current_tab s TabMsg.goBack with
      | PanicOr.panicked m => PanicOr.panicked m
      | PanicOr.ok sends => PanicOr.ok ⟨s, [], sends, []⟩
  | AppMsg.goForward =>
      match send_to_current_tab s TabMsg.goForward with
      | PanicOr.panicked m => PanicOr.panicked m
      | PanicOr.ok sends => PanicOr.ok ⟨s, [], sends, []⟩
  | AppMsg.updateSidebarVisibility visible =>
      PanicOr.ok ⟨{ s with sidebar_visible := visible }, [], [], []⟩
  | AppMsg.selectTab index =>
      let s2 : AppModel := { s with current_tab := some index }
      match get_current_tab s2 with
      | none => PanicOr.panicked "called Option::unwrap() on a None value"
      | some tab => PanicOr.ok ⟨s2, [AppMsg.updateOutline tab.outline], [], []⟩
  | AppMsg.selectHeading heading =>
      match send_to_current_tab s (TabMsg.selectedHeading heading) with
      | PanicOr.panicked m => PanicOr.panicked m
      | PanicOr.ok sends => PanicOr.ok ⟨s, [], sends, []⟩
  | AppMsg.updateOutline outline =>
      PanicOr.ok ⟨s, [], [], [OutlineSidebarMsg.updatedOutline outline]⟩
  | AppMsg.updateURI uri =>
      match send_to_current_tab s (TabMsg.updatedURI uri) with
      | PanicOr.panicked m => PanicOr.panicked m
      | PanicOr.ok sends => PanicOr.ok ⟨s, [], sends, []⟩

/-- A renderer state used as a concrete test fixture. -/
def w0 : WebView := ⟨false, false⟩

/-- A concrete heading fixture with a non-empty dom id. -/
def heading0 : HTMLHeading := ⟨"h2", "Details", 1, some "d1"⟩

/-- Environment where the extraction script succeeds and the payload
deserializes to the empty outline. -/
def goodEnv : WebEnv :=
  { go_back := fun w => w, go_forward := fun w => w,
    load_uri := fun _ w => w,
    run_script_headings := fun _ => Except.ok "[]",
    parse_outline := fun _ => some [] }

/-- Environment where the script succeeds but returns a payload that is not
well-formed JSON for a heading array (serde_json rejects every payload). -/
def badEnv : WebEnv :=
  { go_back := fun w => w, go_forward := fun w => w,
    load_uri := fun _ w => w,
    run_script_headings := fun _ => Except.ok "not json",
    parse_outline := fun _ => none }

/-- Environment where the script call itself fails with a glib error. -/
def errEnv : WebEnv :=
  { go_back := fun w => w, go_forward := fun w => w,
    load_uri := fun _ w => w,
    run_script_headings := fun _ => Except.error ⟨"script failed"⟩,
    parse_outline := fun _ => none }

/-- Sidebar fixture holding a one-heading outline. -/
def sb0 : OutlineSidebarModel := ⟨some [heading0], [heading0]⟩

/-- Sidebar fixture holding no outline. -/
def sbEmpty : OutlineSidebarModel := ⟨none, []⟩

/-- The app state right after AppModel::init: one initial tab, current. -/
def app0 : AppModel :=
  ⟨"file:///tmp/man.html", [init_tab "file:///tmp/man.html"], some 0, true⟩

/-- App fixture with no current tab set. -/
def appNoTab : AppModel := { app0 with current_tab := none }

/-- C1 counterexample: with a payload that is not well-formed JSON
("not json", rejected by the deserializer), processing LoadFinished aborts
the process with the expect message instead of producing a recoverable
DeserializationError result, refuting the claim as stated. -/
theorem c1_counterexample :
    update_with_view badEnv w0 WebPaneMsg.loadFinished =
      PanicOr.panicked "JSON deserialization failed" := rfl

/-- C1 (amended): a failure of the script call itself is recoverable and is
reported upward as an absent outline (UpdateOutline none); but a textual
payload that is not well-formed JSON for a heading array aborts the process
via expect("JSON deserialization failed") rather than yielding a
recoverable DeserializationError. -/
theorem c1_get_page_headings_error_policy (env : WebEnv) (w : WebView) :
    (∀ e : GlibError, env.run_script_headings w = Except.error e →
      get_page_headings env w = PanicOr.ok (Except.error e) ∧
      update_with_view env w WebPaneMsg.loadFinished =
        PanicOr.ok ⟨w, [TabMsg.updateOutline none], [WebPaneMsg.updateNavState], 1⟩) ∧
    (∀ payload : String, env.run_script_headings w = Except.ok payload →
      env.parse_outline payload = none →
      update_with_view env w WebPaneMsg.loadFinished =
        PanicOr.panicked "JSON deserialization failed") := by
  constructor
  · intro e he
    have h1 : get_page_headings env w = PanicOr.ok (Except.error e) := by
      simp [get_page_headings, he]
    exact ⟨h1, by simp [update_with_view, h1, outline_or_none]⟩
  · intro payload hp hnone
    have h1 : get_page_headings env w = PanicOr.panicked "JSON deserialization failed" := by
      simp [get_page_headings, hp, hnone]
    simp [update_with_view, h1]

/-- C1 witness: in the environment whose script call fails, the error is
recoverable and the outline is reported as absent upward. -/
theorem c1_witness :
    get_page_headings errEnv w0 = PanicOr.ok (Except.error ⟨"script failed"⟩) ∧
    update_with_view errEnv w0 WebPaneMsg.loadFinished =
      PanicOr.ok ⟨w0, [TabMsg.updateOutline none], [WebPaneMsg.updateNavState], 1⟩ :=
  (c1_get_page_headings_error_policy errEnv w0).1 ⟨"script failed"⟩ rfl

/-- C2 counterexample: processing TabMsg.updateOutline on a concrete tab
state emits no TabResponse at all (in particular no
TabResponse.updateOutline upward), while the broker broadcast does happen,
refuting the claim as stated. -/
theorem c2_counterexample :
    (TabModel.update (init_tab "file:///tmp/man.html")
        (TabMsg.updateOutline (some [heading0]))).outputs = [] ∧
    (TabModel.update (init_tab "file:///tmp/man.html")
        (TabMsg.updateOutline (some [heading0]))).outline_broker =
      [OutlineSidebarMsg.updatedOutline (some [heading0])] :=
  ⟨rfl, rfl⟩

/-- C2 (amended): TabMsg.updateOutline stores the outline and broadcasts it
on the outline-sidebar broker, but emits nothing upward: the
TabResponse.updateOutline variant is declared and handled by the
orchestrator forward, yet the tab never produces it (only
TabResponse.selectTab is ever sent, from the tab-selected signal). -/
theorem c2_update_outline_no_upward_emit (s : TabModel) (outline : Option Outline) :
    TabModel.update s (TabMsg.updateOutline outline) =
      ⟨{ s with outline := outline }, [], [],
        [OutlineSidebarMsg.updatedOutline outline], []⟩ := rfl

/-- C2 amended-theorem witness at a concrete tab state and outline. -/
theorem c2_witness :
    TabModel.update (init_tab "file:///tmp/man.html")
        (TabMsg.updateOutline (some [heading0])) =
      ⟨{ init_tab "file:///tmp/man.html" with outline := some [heading0] }, [], [],
        [OutlineSidebarMsg.updatedOutline (some [heading0])], []⟩ :=
  c2_update_outline_no_upward_emit (init_tab "file:///tmp/man.html") (some [heading0])

/-- C3 counterexample: in a concrete environment where extraction succeeds,
a Finished load event triggers two navigation-state refreshes (one from the
load-changed handler, one after the extraction), not exactly one, refuting
the claim as stated. -/
theorem c3_counterexample :
    finished_nav_refresh_count goodEnv w0 = 2 ∧
    finished_nav_refresh_count goodEnv w0 ≠ 1 := by
  constructor <;> decide

/-- C3 (amended): a Finished load event triggers exactly one
outline-extraction attempt and exactly one UpdateOutline output (Some on
success, None on script failure), but two navigation-state refreshes: one
emitted directly by the load-changed handler as for every load event, and
one after the extraction completes. -/
theorem c3_finished_cascade (env : WebEnv) (w : WebView)
    (r : Except GlibError Outline)
    (hr : get_page_headings env w = PanicOr.ok r) :
    load_changed_cascade env w LoadEvent.finished =
      PanicOr.ok ⟨w,
        [TabMsg.updateLoadState LoadEvent.finished,
         TabMsg.updateNavState (get_nav_state w),
         TabMsg.updateOutline (outline_or_none r),
         TabMsg.updateNavState (get_nav_state w)], 1⟩ ∧
    [TabMsg.updateLoadState LoadEvent.finished,
     TabMsg.updateNavState (get_nav_state w),
     TabMsg.updateOutline (outline_or_none r),
     TabMsg.updateNavState (get_nav_state w)].countP is_outline_output = 1 ∧
    [TabMsg.updateLoadState LoadEvent.finished,
     TabMsg.updateNavState (get_nav_state w),
     TabMsg.updateOutline (outline_or_none r),
     TabMsg.updateNavState (get_nav_state w)].countP is_nav_state_output = 2 := by
  refine ⟨?_, rfl, rfl⟩
  simp [load_changed_cascade, load_changed_handler, run_queue, update_with_view, hr]

/-- C3 amended-theorem witness in the concrete succeeding environment. -/
theorem c3_witness :
    load_changed_cascade goodEnv w0 LoadEvent.finished =
      PanicOr.ok ⟨w0,
        [TabMsg.updateLoadState LoadEvent.finished,
         TabMsg.updateNavState (get_nav_state w0),
         TabMsg.updateOutline (outline_or_none (Except.ok [])),
         TabMsg.updateNavState (get_nav_state w0)], 1⟩ ∧
    [TabMsg.updateLoadState LoadEvent.finished,
     TabMsg.updateNavState (get_nav_state w0),
     TabMsg.updateOutline (outline_or_none (Except.ok [])),
     TabMsg.updateNavState (get_nav_state w0)].countP is_outline_output = 1 ∧
    [TabMsg.updateLoadState LoadEvent.finished,
     TabMsg.updateNavState (get_nav_state w0),
     TabMsg.updateOutline (outline_or_none (Except.ok [])),
     TabMsg.updateNavState (get_nav_state w0)].countP is_nav_state_output = 2 :=
  c3_finished_cascade goodEnv w0 (Except.ok []) rfl

/-- C4: processing SelectTab first moves the current-tab pointer to the new
handle, then pushes exactly the stored outline of the newly current tab
(possibly none) through UpdateOutline, which forwards it to the outline
sidebar. -/
theorem c4_select_tab_pushes_outline (s : AppModel) (index : Nat) (tab : TabModel)
    (h : s.tabs[index]? = some tab) :
    AppModel.update s (AppMsg.selectTab index) =
      PanicOr.ok ⟨{ s with current_tab := some index },
        [AppMsg.updateOutline tab.outline], [], []⟩ ∧
    AppModel.update { s with current_tab := some index }
        (AppMsg.updateOutline tab.outline) =
      PanicOr.ok ⟨{ s with current_tab := some index }, [], [],
        [OutlineSidebarMsg.updatedOutline tab.outline]⟩ := by
  constructor
  · simp [AppModel.update, get_current_tab, h]
  · rfl

/-- C4 witness: selecting the sole initial tab of the freshly initialized
app pushes that tab outline (none) to the sidebar. -/
theorem c4_witness :
    AppModel.update app0 (AppMsg.selectTab 0) =
      PanicOr.ok ⟨{ app0 with current_tab := some 0 },
        [AppMsg.updateOutline (init_tab "file:///tmp/man.html").outline], [], []⟩ ∧
    AppModel.update { app0 with current_tab := some 0 }
        (AppMsg.updateOutline (init_tab "file:///tmp/man.html").outline) =
      PanicOr.ok ⟨{ app0 with current_tab := some 0 }, [], [],
        [OutlineSidebarMsg.updatedOutline (init_tab "file:///tmp/man.html").outline]⟩ :=
  c4_select_tab_pushes_outline app0 0 (init_tab "file:///tmp/man.html") rfl

/-- C5: the id-based scroll path is taken if and only if the heading dom id
is present and non-empty; the id argument handed to the script is the dom
id or the empty string when absent; when the dom id is empty or absent the
script falls back to indexing the stashed element list by the heading
index. -/
theorem c5_scroll_path (h : HTMLHeading) :
    (try_scroll_to_heading_args h).1 = h.index ∧
    (try_scroll_to_heading_args h).2 = h.id.getD "" ∧
    ((∃ s, try_scroll_to_heading_path h = ScrollPath.byId s) ↔
      ∃ s, h.id = some s ∧ s ≠ "") ∧
    (∀ s, h.id = some s → s ≠ "" →
      try_scroll_to_heading_path h = ScrollPath.byId s) ∧
    (h.id.getD "" = "" →
      try_scroll_to_heading_path h = ScrollPath.byIndex h.index) := by
  obtain ⟨tag, text, idx, oid⟩ := h
  refine ⟨rfl, rfl, ?_, ?_, ?_⟩
  · cases oid with
    | none =>
        simp [try_scroll_to_heading_path, try_scroll_to_heading_args, scroll_script_path]
    | some s =>
        by_cases hs : s = "" <;>
          simp [try_scroll_to_heading_path, try_scroll_to_heading_args,
            scroll_script_path, hs]
  · intro s hid hs
    cases hid
    simp [try_scroll_to_heading_path, try_scroll_to_heading_args, scroll_script_path, hs]
  · intro hempty
    cases oid with
    | none =>
        simp [try_scroll_to_heading_path, try_scroll_to_heading_args, scroll_script_path]
    | some s =>
        simp only [Option.getD_some] at hempty
        simp [try_scroll_to_heading_path, try_scroll_to_heading_args,
          scroll_script_path, hempty]

/-- C5 witness at the concrete heading with dom id "d1". -/
theorem c5_witness :
    try_scroll_to_heading_path heading0 = ScrollPath.byId "d1" :=
  (c5_scroll_path heading0).2.2.2.1 "d1" rfl (by decide)

/-- C6: after every goBack and goForward command the WebPane cascade emits
exactly one navigation-state event whose canGoBack and canGoForward fields
equal the renderer post-call capability queries. -/
theorem c6_nav_refresh_after_go (env : WebEnv) (w : WebView) :
    run_queue env 4 w [WebPaneMsg.goBack] =
      PanicOr.ok ⟨env.go_back w,
        [TabMsg.updateNavState
          ⟨(env.go_back w).can_go_back, (env.go_back w).can_go_forward⟩], 0⟩ ∧
    run_queue env 4 w [WebPaneMsg.goForward] =
      PanicOr.ok ⟨env.go_forward w,
        [TabMsg.updateNavState
          ⟨(env.go_forward w).can_go_back, (env.go_forward w).can_go_forward⟩], 0⟩ :=
  ⟨rfl, rfl⟩

/-- C6 witness in the concrete environment. -/
theorem c6_witness :
    run_queue goodEnv 4 w0 [WebPaneMsg.goBack] =
      PanicOr.ok ⟨goodEnv.go_back w0,
        [TabMsg.updateNavState
          ⟨(goodEnv.go_back w0).can_go_back, (goodEnv.go_back w0).can_go_forward⟩], 0⟩ ∧
    run_queue goodEnv 4 w0 [WebPaneMsg.goForward] =
      PanicOr.ok ⟨goodEnv.go_forward w0,
        [TabMsg.updateNavState
          ⟨(goodEnv.go_forward w0).can_go_back, (goodEnv.go_forward w0).can_go_forward⟩], 0⟩ :=
  c6_nav_refresh_after_go goodEnv w0

/-- C7: is_progress_visible is true exactly for Started, Committed and
Redirected, hence false for Finished and every other load event, and the
tab stores exactly this derived flag when processing UpdateLoadState. -/
theorem c7_progress_visible (e : LoadEvent) (s : TabModel) :
    (is_progress_visible e = true ↔
      e = LoadEvent.started ∨ e = LoadEvent.committed ∨ e = LoadEvent.redirected) ∧
    (TabModel.update s (TabMsg.updateLoadState e)).state.progress_visible =
      is_progress_visible e := by
  constructor
  · cases e <;> simp [is_progress_visible]
  · rfl

/-- C7 witness at the Finished event and a concrete tab state. -/
theorem c7_witness :
    (is_progress_visible LoadEvent.finished = true ↔
      LoadEvent.finished = LoadEvent.started ∨
        LoadEvent.finished = LoadEvent.committed ∨
        LoadEvent.finished = LoadEvent.redirected) ∧
    (TabModel.update (init_tab "file:///tmp/man.html")
        (TabMsg.updateLoadState LoadEvent.finished)).state.progress_visible =
      is_progress_visible LoadEvent.finished :=
  c7_progress_visible LoadEvent.finished (init_tab "file:///tmp/man.html")

/-- C8: with an outline present, SelectItem on an index missing from the
stored outline is logged and dropped (no output, state unchanged), and
SelectItem on a valid position emits exactly the heading at that position. -/
theorem c8_select_item (s : OutlineSidebarModel) (o : Outline) (i : Nat)
    (hs : s.outline = some o) :
    (o[i]? = none →
      OutlineSidebarModel.update s (OutlineSidebarMsg.selectItem i) =
        PanicOr.ok ⟨s, [], ["Invalid heading index: " ++ toString i]⟩) ∧
    (∀ heading, o[i]? = some heading →
      OutlineSidebarModel.update s (OutlineSidebarMsg.selectItem i) =
        PanicOr.ok ⟨s, [OutlineSidebarResponse.selectHeading heading], []⟩) := by
  constructor
  · intro hnone
    simp [OutlineSidebarModel.update, hs, hnone]
  · intro heading hsome
    simp [OutlineSidebarModel.update, hs, hsome]

/-- C8 witness: on the one-heading outline, index 5 is logged and dropped
while index 0 emits that heading. -/
theorem c8_witness :
    OutlineSidebarModel.update sb0 (OutlineSidebarMsg.selectItem 5) =
      PanicOr.ok ⟨sb0, [], ["Invalid heading index: " ++ toString 5]⟩ ∧
    OutlineSidebarModel.update sb0 (OutlineSidebarMsg.selectItem 0) =
      PanicOr.ok ⟨sb0, [OutlineSidebarResponse.selectHeading heading0], []⟩ :=
  ⟨(c8_select_item sb0 [heading0] 5 rfl).1 rfl,
   (c8_select_item sb0 [heading0] 0 rfl).2 heading0 rfl⟩

/-- C9: every intent that needs a current tab (goBack, goForward,
navigateTo via updateURI, selectHeading) aborts the process with
"No current tab" when the pointer is unset, and with a set pointer the
intent is routed to that tab without reaching the abort. -/
theorem c9_missing_current_tab (s : AppModel) (heading : HTMLHeading)
    (uri : String) (i : Nat) :
    (s.current_tab = none →
      AppModel.update s AppMsg.goBack = PanicOr.panicked "No current tab" ∧
      AppModel.update s AppMsg.goForward = PanicOr.panicked "No current tab" ∧
      AppModel.update s (AppMsg.selectHeading heading) =
        PanicOr.panicked "No current tab" ∧
      AppModel.update s (AppMsg.updateURI uri) = PanicOr.panicked "No current tab") ∧
    (s.current_tab = some i →
      AppModel.update s AppMsg.goBack = PanicOr.ok ⟨s, [], [(i, TabMsg.goBack)], []⟩ ∧
      AppModel.update s AppMsg.goForward =
        PanicOr.ok ⟨s, [], [(i, TabMsg.goForward)], []⟩ ∧
      AppModel.update s (AppMsg.selectHeading heading) =
        PanicOr.ok ⟨s, [], [(i, TabMsg.selectedHeading heading)], []⟩ ∧
      AppModel.update s (AppMsg.updateURI uri) =
        PanicOr.ok ⟨s, [], [(i, TabMsg.updatedURI uri)], []⟩) := by
  constructor
  · intro hnone
    refine ⟨?_, ?_, ?_, ?_⟩ <;> simp [AppModel.update, send_to_current_tab, hnone]
  · intro hsome
    refine ⟨?_, ?_, ?_, ?_⟩ <;> simp [AppModel.update, send_to_current_tab, hsome]

/-- C9 witness: goBack aborts in the tabless state and is routed to tab 0
in the initial state. -/
theorem c9_witness :
    AppModel.update appNoTab AppMsg.goBack = PanicOr.panicked "No current tab" ∧
    AppModel.update app0 AppMsg.goBack =
      PanicOr.ok ⟨app0, [], [(0, TabMsg.goBack)], []⟩ :=
  ⟨((c9_missing_current_tab appNoTab heading0 "u" 0).1 rfl).1,
   ((c9_missing_current_tab app0 heading0 "u" 0).2 rfl).1⟩

/-- C10: SelectItem with no stored outline aborts the process through the
unreachable branch; after any UpdatedOutline(Some _) update, a subsequent
SelectItem never reaches that abort. -/
theorem c10_select_without_outline (s t : OutlineSidebarModel) (o : Outline)
    (i : Nat) :
    (s.outline = none →
      OutlineSidebarModel.update s (OutlineSidebarMsg.selectItem i) =
        PanicOr.panicked "Selected item without an outline") ∧
    (∀ eff, OutlineSidebarModel.update t (OutlineSidebarMsg.updatedOutline (some o)) =
        PanicOr.ok eff →
      ∃ res, OutlineSidebarModel.update eff.state (OutlineSidebarMsg.selectItem i) =
        PanicOr.ok res) := by
  constructor
  · intro hnone
    simp [OutlineSidebarModel.update, hnone]
  · intro eff heff
    simp only [OutlineSidebarModel.update, PanicOr.ok.injEq] at heff
    subst heff
    cases ho : o[i]? with
    | some heading =>
        exact ⟨⟨⟨some o, o⟩, [OutlineSidebarResponse.selectHeading heading], []⟩,
          by simp [OutlineSidebarModel.update, ho]⟩
    | none =>
        exact ⟨⟨⟨some o, o⟩, [], ["Invalid heading index: " ++ toString i]⟩,
          by simp [OutlineSidebarModel.update, ho]⟩

/-- C10 witness: SelectItem aborts on the outline-less fixture, and after
UpdatedOutline(Some) the select path succeeds even at a stale index. -/
theorem c10_witness :
    OutlineSidebarModel.update sbEmpty (OutlineSidebarMsg.selectItem 0) =
      PanicOr.panicked "Selected item without an outline" ∧
    ∃ res, OutlineSidebarModel.update
        ((⟨⟨some [heading0], [heading0]⟩, [], []⟩ : SidebarEffects)).state
        (OutlineSidebarMsg.selectItem 3) = PanicOr.ok res :=
  ⟨(c10_select_without_outline sbEmpty sbEmpty [heading0] 0).1 rfl,
   (c10_select_without_outline sbEmpty sbEmpty [heading0] 3).2
     ⟨⟨some [heading0], [heading0]⟩, [], []⟩ rfl⟩
